import Mathlib

/-!
Verification development for the presentimer application (src/app.py).

The application is a Streamlit page; its core is (1) two free-text parsers
(`parse_time_input`, `parse_duration_input`), (2) a JSON settings store
(`load_settings`, `save_settings`), and (3) a small state machine on the
shared record driven by a per-rerun tick plus button handlers.

Modelling conventions used throughout this file:
* Python strings are Lean `String`s; character-level work happens on `.data`.
* `unicodedata.normalize('NFKC', s)` is modelled on the character classes
  the parsers can observe after the subsequent strip: full-width digits
  U+FF10–U+FF19 map to ASCII digits, the full-width colon U+FF1A maps to
  `':'`, and every other character is left alone (any character that is not
  a digit or colon after normalization is removed by the strip anyway).
* Python `int(str)` on the digit/colon-free substrings that occur here is
  `digitsToNat`: it fails exactly on the empty string (ValueError), which is
  the only failure mode reachable after the `re.sub` strip.
* ISO-8601 timestamps are modelled as integer seconds; the empty string used
  by the code for "no timestamp" is `Option.none`.
* Wall-clock instants are integer seconds; `datetime.time()` extraction is
  seconds-of-day, i.e. reduction modulo 86400.
-/

/-- Value of an ASCII digit character. -/
def digitVal (c : Char) : Nat := c.toNat - 48

/-- Numeric value of a digit string, most significant digit first. -/
def digitsVal (cs : List Char) : Nat := cs.foldl (fun a c => 10 * a + digitVal c) 0

/-- Model of Python `int(...)` on the strings reachable after the strip:
fails on the empty string and on any non-digit character, otherwise the
decimal value. -/
def digitsToNat (cs : List Char) : Option Nat :=
  if cs = [] then none
  else if cs.all Char.isDigit then some (digitsVal cs) else none

/-- Character-level model of NFKC normalization restricted to the characters
the parsers can observe: full-width digits and the full-width colon become
their ASCII counterparts. -/
def normKC (c : Char) : Char :=
  if 0xFF10 ≤ c.toNat ∧ c.toNat ≤ 0xFF19 then Char.ofNat (c.toNat - 0xFF10 + 48)
  else if c.toNat = 0xFF1A then ':'
  else c

/-- Model of `re.sub(r'[^\d:]', '', unicodedata.normalize('NFKC', s))`:
normalize, then keep only digits and colons. -/
def cleanOf (s : String) : List Char :=
  (s.data.map normKC).filter (fun c => c.isDigit || c == ':')

/-- Python `str.split(':')` on a character list (keeps empty parts). -/
def splitColon : List Char → List (List Char)
  | [] => [[]]
  | c :: rest =>
    if c = ':' then [] :: splitColon rest
    else
      match splitColon rest with
      | [] => [[c]]
      | p :: ps => (c :: p) :: ps

/-- Model of `datetime.time(hour, minute)` as far as the program observes it. -/
structure TimeOfDay where
  hour : Nat
  minute : Nat
deriving DecidableEq

/-- The shared validity check of `parse_time_input`
(`if 0 <= hour <= 23 and 0 <= minute <= 59`); the lower bounds are
automatic for values parsed from digit strings. -/
def mkTime (hour minute : Nat) : Option TimeOfDay :=
  if hour ≤ 23 ∧ minute ≤ 59 then some ⟨hour, minute⟩ else none

/-- Embedding of `parse_time_input` (src/app.py lines 22–68). -/
def parse_time_input (s : String) : Option TimeOfDay :=
  if s.data = [] then none
  else if (cleanOf s).contains ':' then
    match splitColon (cleanOf s) with
    | [p1, p2] =>
      match digitsToNat p1, digitsToNat p2 with
      | some hour, some minute => mkTime hour minute
      | _, _ => none
    | _ => none
  else if (cleanOf s).length = 1 then
    match digitsToNat (cleanOf s) with
    | some hour => mkTime hour 0
    | none => none
  else if (cleanOf s).length = 2 then
    match digitsToNat (cleanOf s) with
    | some hour => mkTime hour 0
    | none => none
  else if (cleanOf s).length = 3 then
    match digitsToNat ((cleanOf s).take 1), digitsToNat ((cleanOf s).drop 1) with
    | some hour, some minute => mkTime hour minute
    | _, _ => none
  else if (cleanOf s).length = 4 then
    match digitsToNat ((cleanOf s).take 2), digitsToNat ((cleanOf s).drop 2) with
    | some hour, some minute => mkTime hour minute
    | _, _ => none
  else none

/-- Embedding of `parse_duration_input` (src/app.py lines 71–110).
Result in seconds.  Values parsed from digit strings are non-negative, so
the code's `minutes >= 0` test is vacuously true and `Nat` is faithful. -/
def parse_duration_input (s : String) : Option Nat :=
  if s.data = [] then none
  else if (cleanOf s).contains ':' then
    match splitColon (cleanOf s) with
    | [p1, p2] =>
      match digitsToNat p1, digitsToNat p2 with
      | some minutes, some seconds =>
        if seconds ≤ 59 then some (minutes * 60 + seconds) else none
      | _, _ => none
    | _ => none
  else
    match digitsToNat (cleanOf s) with
    | some duration =>
      if duration = 0 then none
      else if duration < 60 then some (duration * 60)
      else some duration
    | none => none

/-- Two-digit zero-padded rendering of a number below 100, as produced by
`strftime('%H:%M')`. -/
def twoDig (n : Nat) : List Char := [Nat.digitChar (n / 10), Nat.digitChar (n % 10)]

/-- Model of `target_time.strftime('%H:%M')`. -/
def formatHHMM (t : TimeOfDay) : String :=
  String.mk (twoDig t.hour ++ ':' :: twoDig t.minute)

theorem mkTime_bounds {a b : Nat} {t : TimeOfDay} (h : mkTime a b = some t) :
    t.hour ≤ 23 ∧ t.minute ≤ 59 := by
  unfold mkTime at h
  split at h
  · cases h
    next hc => exact hc
  · cases h

/-- Any time returned by `parse_time_input` is within range. -/
theorem parse_time_valid (s : String) (t : TimeOfDay)
    (h : parse_time_input s = some t) : t.hour ≤ 23 ∧ t.minute ≤ 59 := by
  unfold parse_time_input at h
  repeat' split at h
  all_goals first
    | exact mkTime_bounds h
    | cases h

theorem cleanOf_data_ne_nil {s : String} (h : cleanOf s ≠ []) : s.data ≠ [] := by
  intro h0
  exact h (by simp [cleanOf, h0])

theorem digitsToNat_some_ne_nil {cs : List Char} {n : Nat}
    (h : digitsToNat cs = some n) : cs ≠ [] := by
  intro h0
  rw [h0] at h
  simp [digitsToNat] at h

theorem contains_colon_ne_nil {s : String}
    (h : (cleanOf s).contains ':' = true) : cleanOf s ≠ [] := by
  intro h0
  rw [h0] at h
  simp at h

/-- C1: after normalization and stripping, `parse_time_input` reads a
colon-free string of 1–2 digits as the hour with minute 0, 3 digits as
(first digit, last two), 4 digits as (first two, last two), rejects every
other colon-free length, returns a time only when `hour ≤ 23` and
`minute ≤ 59`, and satisfies the five documented examples. -/
theorem parse_time_input_spec :
    (∀ s t, parse_time_input s = some t → t.hour ≤ 23 ∧ t.minute ≤ 59) ∧
    (∀ s h, (cleanOf s).contains ':' = false →
      ((cleanOf s).length = 1 ∨ (cleanOf s).length = 2) →
      digitsToNat (cleanOf s) = some h →
      parse_time_input s = if h ≤ 23 then some ⟨h, 0⟩ else none) ∧
    (∀ s h m, (cleanOf s).contains ':' = false → (cleanOf s).length = 3 →
      digitsToNat ((cleanOf s).take 1) = some h →
      digitsToNat ((cleanOf s).drop 1) = some m →
      parse_time_input s = if h ≤ 23 ∧ m ≤ 59 then some ⟨h, m⟩ else none) ∧
    (∀ s h m, (cleanOf s).contains ':' = false → (cleanOf s).length = 4 →
      digitsToNat ((cleanOf s).take 2) = some h →
      digitsToNat ((cleanOf s).drop 2) = some m →
      parse_time_input s = if h ≤ 23 ∧ m ≤ 59 then some ⟨h, m⟩ else none) ∧
    (∀ s, (cleanOf s).contains ':' = false →
      ((cleanOf s).length = 0 ∨ 5 ≤ (cleanOf s).length) →
      parse_time_input s = none) ∧
    parse_time_input "7" = some ⟨7, 0⟩ ∧
    parse_time_input "700" = some ⟨7, 0⟩ ∧
    parse_time_input "1930" = some ⟨19, 30⟩ ∧
    parse_time_input "25:00" = none ∧
    parse_time_input "" = none := by
  refine ⟨parse_time_valid, ?_, ?_, ?_, ?_, by decide, by decide, by decide,
    by decide, by decide⟩
  · intro s h hc hlen hd
    have hne : s.data ≠ [] := cleanOf_data_ne_nil (digitsToNat_some_ne_nil hd)
    unfold parse_time_input
    rw [if_neg hne, if_neg (by rw [hc]; simp)]
    rcases hlen with h1 | h2
    · rw [if_pos h1, hd]
      by_cases h23 : h ≤ 23 <;> simp [mkTime, h23]
    · rw [if_neg (by omega), if_pos h2, hd]
      by_cases h23 : h ≤ 23 <;> simp [mkTime, h23]
  · intro s h m hc hlen hh hm
    have hne : s.data ≠ [] := cleanOf_data_ne_nil (by intro h0; rw [h0] at hlen; simp at hlen)
    unfold parse_time_input
    rw [if_neg hne, if_neg (by rw [hc]; simp), if_neg (by omega), if_neg (by omega),
      if_pos hlen, hh, hm]
    rfl
  · intro s h m hc hlen hh hm
    have hne : s.data ≠ [] := cleanOf_data_ne_nil (by intro h0; rw [h0] at hlen; simp at hlen)
    unfold parse_time_input
    rw [if_neg hne, if_neg (by rw [hc]; simp), if_neg (by omega), if_neg (by omega),
      if_neg (by omega), if_pos hlen, hh, hm]
    rfl
  · intro s hc hlen
    by_cases hne : s.data = []
    · unfold parse_time_input
      rw [if_pos hne]
    · unfold parse_time_input
      rw [if_neg hne, if_neg (by rw [hc]; simp), if_neg (by omega), if_neg (by omega),
        if_neg (by omega), if_neg (by omega)]

theorem parse_time_input_spec_witness :
    parse_time_input "1930" = if 19 ≤ 23 ∧ 30 ≤ 59 then some ⟨19, 30⟩ else none :=
  parse_time_input_spec.2.2.2.1 "1930" 19 30 (by decide) (by decide) (by decide)
    (by decide)

/-- C2: `parse_duration_input` with a colon takes exactly two numeric parts
(minutes with no upper cap, seconds 0–59) and returns `minutes*60+seconds`,
otherwise `none`; without a colon it reads a plain integer `n`, rejects
`n = 0`, returns `n*60` when `n < 60` and `n` itself otherwise; plus the
five documented examples. -/
theorem parse_duration_input_spec :
    (∀ s p1 p2 minutes seconds, (cleanOf s).contains ':' = true →
      splitColon (cleanOf s) = [p1, p2] →
      digitsToNat p1 = some minutes → digitsToNat p2 = some seconds →
      parse_duration_input s =
        if seconds ≤ 59 then some (minutes * 60 + seconds) else none) ∧
    (∀ s p1 p2, (cleanOf s).contains ':' = true →
      splitColon (cleanOf s) = [p1, p2] →
      (digitsToNat p1 = none ∨ digitsToNat p2 = none) →
      parse_duration_input s = none) ∧
    (∀ s, (cleanOf s).contains ':' = true →
      (splitColon (cleanOf s)).length ≠ 2 → parse_duration_input s = none) ∧
    (∀ s n, (cleanOf s).contains ':' = false → digitsToNat (cleanOf s) = some n →
      parse_duration_input s =
        if n = 0 then none else if n < 60 then some (n * 60) else some n) ∧
    (∀ s, (cleanOf s).contains ':' = false → digitsToNat (cleanOf s) = none →
      parse_duration_input s = none) ∧
    parse_duration_input "15" = some 900 ∧
    parse_duration_input "90" = some 90 ∧
    parse_duration_input "1:30" = some 90 ∧
    parse_duration_input "90:00" = some 5400 ∧
    parse_duration_input "0" = none := by
  refine ⟨?_, ?_, ?_, ?_, ?_, by decide, by decide, by decide, by decide, by decide⟩
  · intro s p1 p2 minutes seconds hc hsp h1 h2
    have hne : s.data ≠ [] := cleanOf_data_ne_nil (contains_colon_ne_nil hc)
    unfold parse_duration_input
    rw [if_neg hne, if_pos hc, hsp]
    simp only [h1, h2]
  · intro s p1 p2 hc hsp hnone
    have hne : s.data ≠ [] := cleanOf_data_ne_nil (contains_colon_ne_nil hc)
    unfold parse_duration_input
    rw [if_neg hne, if_pos hc, hsp]
    rcases hd1 : digitsToNat p1 with _ | m1 <;>
      rcases hd2 : digitsToNat p2 with _ | m2 <;>
      simp_all
  · intro s hc hlen
    have hne : s.data ≠ [] := cleanOf_data_ne_nil (contains_colon_ne_nil hc)
    unfold parse_duration_input
    rw [if_neg hne, if_pos hc]
    rcases hsp : splitColon (cleanOf s) with _ | ⟨p1, _ | ⟨p2, _ | ⟨p3, rest⟩⟩⟩
    · rfl
    · rfl
    · exact absurd (by rw [hsp]; rfl) hlen
    · rfl
  · intro s n hc hd
    have hne : s.data ≠ [] := cleanOf_data_ne_nil (digitsToNat_some_ne_nil hd)
    unfold parse_duration_input
    rw [if_neg hne, if_neg (by rw [hc]; simp), hd]
  · intro s hc hd
    by_cases hne : s.data = []
    · unfold parse_duration_input
      rw [if_pos hne]
    · unfold parse_duration_input
      rw [if_neg hne, if_neg (by rw [hc]; simp), hd]

theorem parse_duration_input_spec_witness :
    parse_duration_input "90:00" = if 0 ≤ 59 then some (90 * 60 + 0) else none :=
  parse_duration_input_spec.1 "90:00" ['9', '0'] ['0', '0'] 90 0 (by decide)
    (by decide) (by decide) (by decide)

set_option maxHeartbeats 2000000 in
theorem roundtrip_all : ∀ h : Nat, h < 24 → ∀ m : Nat, m < 60 →
    parse_time_input (formatHHMM ⟨h, m⟩) = some ⟨h, m⟩ := by decide

/-- C3: whenever `parse_time_input` succeeds, rendering the result with
`strftime('%H:%M')` and re-parsing yields the same hour and minute. -/
theorem parse_time_input_roundTrip (s : String) (t : TimeOfDay)
    (h : parse_time_input s = some t) :
    parse_time_input (formatHHMM t) = some t := by
  obtain ⟨h1, h2⟩ := parse_time_valid s t h
  exact roundtrip_all t.hour (by omega) t.minute (by omega)

theorem parse_time_input_roundTrip_witness :
    parse_time_input (formatHHMM ⟨19, 30⟩) = some ⟨19, 30⟩ :=
  parse_time_input_roundTrip "1930" ⟨19, 30⟩ (by decide)

/-- The `timer_mode` field: `'clock'` or `'presentation'`. -/
inductive TimerMode
  | clock
  | presentation
deriving DecidableEq

/-- The shared record / session state (the fields of the JSON record that
the state machine reads and writes; `time_reached` in the session mirrors
`color_state` in the record and is modelled as the single field
`color_state`). -/
structure SharedState where
  target_time : TimeOfDay
  suffix : String
  color_state : Bool
  force_color : Bool
  timer_mode : TimerMode
  presentation_duration : Int
  timer_started : Bool
  timer_start_time : Option Int
  timer_paused : Bool
  timer_pause_time : Int
deriving DecidableEq

/-- Seconds-of-day of an instant (`datetime.time()` of `now`). -/
def todOf (now : Int) : Int := now % 86400

/-- Seconds-of-day of a `datetime.time(hour, minute)` value. -/
def targetSecs (t : TimeOfDay) : Int := (t.hour : Int) * 3600 + (t.minute : Int) * 60

/-- Outcome of one handler run: the new session state, the record passed to
`save_settings` if it was called (`none` if not), and whether the
celebratory `st.balloons()` event fired. -/
structure OpOut where
  state : SharedState
  saved : Option SharedState
  event : Bool
deriving DecidableEq

/-- The one-shot "reached" side effect: `time_reached = True`,
`force_color_change = True`. -/
def fireState (s : SharedState) : SharedState :=
  { s with color_state := true, force_color := true }

/-- Presentation-mode tick logic (src/app.py lines 217–260): expiry check
while running, no-op while paused, automatic clearing of the reached flags
while stopped. -/
def tickPres (now : Int) (s : SharedState) : OpOut :=
  match s.timer_started, s.timer_paused with
  | true, false =>
    match s.timer_start_time with
    | some st =>
      if s.presentation_duration - (now - st) ≤ 0 ∧ s.color_state = false then
        ⟨fireState s, some (fireState s), true⟩
      else ⟨s, none, false⟩
    | none => ⟨s, none, false⟩
  | _, true => ⟨s, none, false⟩
  | false, false =>
    if s.color_state = true then
      let s2 := { s with color_state := false, force_color := false }
      ⟨s2, some s2, false⟩
    else ⟨s, none, false⟩

/-- Clock-mode tick logic (src/app.py lines 261–284): fire once when the
time of day has reached the target, auto-clear only when not reached and
`force_color` is off (no save on the clearing branch). -/
def tickClock (now : Int) (s : SharedState) : OpOut :=
  if targetSecs s.target_time ≤ todOf now ∧ s.color_state = false then
    ⟨fireState s, some (fireState s), true⟩
  else if ¬(targetSecs s.target_time ≤ todOf now) ∧ s.force_color = false then
    ⟨{ s with color_state := false }, none, false⟩
  else ⟨s, none, false⟩

/-- The per-rerun tick (mode dispatch, src/app.py line 217 and 261). -/
def tick (now : Int) (s : SharedState) : OpOut :=
  match s.timer_mode with
  | .presentation => tickPres now s
  | .clock => tickClock now s

/-- The start button handler (src/app.py lines 539–581): a fresh start when
not started, a resume (rebaselining `presentation_duration` to the pause
snapshot) when paused, otherwise nothing. -/
def start_timer (now : Int) (s : SharedState) : OpOut :=
  if s.timer_started = false then
    let s2 := { s with timer_started := true, timer_start_time := some now,
                       timer_paused := false, timer_pause_time := 0,
                       color_state := false, force_color := false }
    ⟨s2, some s2, false⟩
  else if s.timer_paused = true then
    let s2 := { s with presentation_duration := max 0 s.timer_pause_time,
                       timer_paused := false, timer_pause_time := 0,
                       timer_start_time := some now }
    ⟨s2, some s2, false⟩
  else ⟨s, none, false⟩

/-- The pause button handler (src/app.py lines 583–608): only from
running; snapshots the remaining time (floored at 0) into
`timer_pause_time`. -/
def pause_timer (now : Int) (s : SharedState) : OpOut :=
  if s.timer_started = true ∧ s.timer_paused = false then
    let remaining :=
      match s.timer_start_time with
      | some st => max 0 (s.presentation_duration - (now - st))
      | none => s.presentation_duration
    let s2 := { s with timer_paused := true, timer_pause_time := remaining }
    ⟨s2, some s2, false⟩
  else ⟨s, none, false⟩

/-- The reset button handler (src/app.py lines 610–631): clears the run
state and both color flags, keeps `presentation_duration`. -/
def reset_timer (s : SharedState) : OpOut :=
  let s2 := { s with timer_started := false, timer_start_time := none,
                     timer_paused := false, timer_pause_time := 0,
                     color_state := false, force_color := false }
  ⟨s2, some s2, false⟩

/-- The manual color toggle handler (src/app.py lines 857–876): flips
`color_state` and sets `force_color` to the new value. -/
def color_toggle (s : SharedState) : OpOut :=
  let s2 := { s with color_state := !s.color_state, force_color := !s.color_state }
  ⟨s2, some s2, false⟩

/-- The confirm handler, clock branch (src/app.py lines 800–826): adopts
the parsed target time and suffix, and sets both color flags exactly when
the new target time-of-day has already passed today. -/
def confirm_time (parsed : TimeOfDay) (newSuffix : String) (now : Int)
    (s : SharedState) : OpOut :=
  let auto : Bool := decide (targetSecs parsed ≤ todOf now)
  let s2 := { s with target_time := parsed, suffix := newSuffix,
                     timer_mode := TimerMode.clock,
                     color_state := auto, force_color := auto }
  ⟨s2, some s2, false⟩

/-- The confirm handler, presentation branch (src/app.py lines 827–843):
adopts the parsed duration and presentation mode, everything else kept. -/
def confirm_duration (d : Nat) (s : SharedState) : OpOut :=
  let s2 := { s with timer_mode := TimerMode.presentation,
                     presentation_duration := (d : Int) }
  ⟨s2, some s2, false⟩

/-- The pure remaining-seconds computation used for display and the expiry
check (src/app.py lines 458–465). -/
def remainingAt (s : SharedState) (now : Int) : Int :=
  match s.timer_started, s.timer_paused with
  | true, false =>
    match s.timer_start_time with
    | some st => s.presentation_duration - (now - st)
    | none => s.presentation_duration
  | _, true => s.timer_pause_time
  | false, false => s.presentation_duration

/-- The default record returned by `load_settings` when the store is
absent or unreadable (src/app.py line 135). -/
def defaultState : SharedState :=
  { target_time := ⟨23, 59⟩, suffix := "から開始", color_state := false,
    force_color := false, timer_mode := TimerMode.clock,
    presentation_duration := 900, timer_started := false,
    timer_start_time := none, timer_paused := false, timer_pause_time := 0 }

/-- A successfully read and JSON-decoded settings file.  `time` and
`suffix` are accessed directly (a missing key raises and falls back to the
defaults, so they are required here); every other field goes through
`data.get` and so is optional. -/
structure RawData where
  time : String
  suffix : String
  timestamp : Option Int
  color_state : Option Bool
  force_color : Option Bool
  timer_mode : Option TimerMode
  presentation_duration : Option Int
  timer_started : Option Bool
  timer_start_time : Option (Option Int)
  timer_paused : Option Bool
  timer_pause_time : Option Int
deriving DecidableEq

/-- Model of `datetime.datetime.strptime(x, '%H:%M').time()`: two
colon-separated groups of one or two digits, hour 0–23, minute 0–59;
anything else raises (here: `none`). -/
def strptimeHM (str : String) : Option TimeOfDay :=
  match splitColon str.data with
  | [p1, p2] =>
    if 1 ≤ p1.length ∧ p1.length ≤ 2 ∧ 1 ≤ p2.length ∧ p2.length ≤ 2 then
      match digitsToNat p1, digitsToNat p2 with
      | some h, some m => if h ≤ 23 ∧ m ≤ 59 then some ⟨h, m⟩ else none
      | _, _ => none
    else none
  | _ => none

/-- What `load_settings` hands back: the state tuple plus the stored
timestamp (the default timestamp is the empty string, i.e. `none`). -/
structure LoadResult where
  state : SharedState
  timestamp : Option Int
deriving DecidableEq

/-- Embedding of `load_settings` (src/app.py lines 113–135).  The argument
is `none` when the file is absent, unreadable, or fails JSON decoding; a
present record whose `time` field does not parse also falls back to the
defaults (the `strptime` call raises inside the `try`). -/
def load_settings (file : Option RawData) : LoadResult :=
  match file with
  | none => ⟨defaultState, none⟩
  | some d =>
    match strptimeHM d.time with
    | none => ⟨defaultState, none⟩
    | some t =>
      ⟨{ target_time := t, suffix := d.suffix,
         color_state := d.color_state.getD false,
         force_color := d.force_color.getD false,
         timer_mode := d.timer_mode.getD TimerMode.clock,
         presentation_duration := d.presentation_duration.getD 900,
         timer_started := d.timer_started.getD false,
         timer_start_time := d.timer_start_time.getD none,
         timer_paused := d.timer_paused.getD false,
         timer_pause_time := d.timer_pause_time.getD 0 }, d.timestamp⟩

/-- Embedding of `save_settings` (src/app.py lines 138–160).  `now_ts` is
the freshly stamped `datetime.datetime.now().isoformat()`; `io_ok` models
whether the file write (or JSON encoding) succeeds — on failure the
function returns `False` instead of raising and nothing is written. -/
def save_settings (s : SharedState) (now_ts : Int) (io_ok : Bool) :
    Bool × Option RawData :=
  if io_ok then
    (true, some
      { time := formatHHMM s.target_time, suffix := s.suffix,
        timestamp := some now_ts,
        color_state := some s.color_state, force_color := some s.force_color,
        timer_mode := some s.timer_mode,
        presentation_duration := some s.presentation_duration,
        timer_started := some s.timer_started,
        timer_start_time := some s.timer_start_time,
        timer_paused := some s.timer_paused,
        timer_pause_time := some s.timer_pause_time })
  else (false, none)

/-- States of the shared record reachable from the defaults through the
operations the page offers (tick, the three timer buttons, the color
toggle, the two confirm branches, and adopting a successfully saved
record back through `load_settings`). -/
inductive Reachable : SharedState → Prop where
  | r_init : Reachable defaultState
  | r_tick (s : SharedState) (now : Int) :
      Reachable s → Reachable (tick now s).state
  | r_start (s : SharedState) (now : Int) :
      Reachable s → Reachable (start_timer now s).state
  | r_pause (s : SharedState) (now : Int) :
      Reachable s → Reachable (pause_timer now s).state
  | r_reset (s : SharedState) :
      Reachable s → Reachable (reset_timer s).state
  | r_toggle (s : SharedState) :
      Reachable s → Reachable (color_toggle s).state
  | r_confirm_time (s : SharedState) (t : TimeOfDay) (suf : String) (now : Int) :
      Reachable s → Reachable (confirm_time t suf now s).state
  | r_confirm_duration (s : SharedState) (d : Nat) :
      Reachable s → Reachable (confirm_duration d s).state
  | r_roundtrip (s : SharedState) (ts : Int) :
      Reachable s → Reachable (load_settings (save_settings s ts true).2).state

/-- C4: resuming from pause rebaselines `presentation_duration` to the
pause snapshot, restamps `timer_start_time`, clears `timer_paused` and
persists; hence pausing at remaining `r`, resuming, and letting `t`
seconds elapse leaves remaining `r - t` (cycles compound because the
conclusion applies again to the resumed state). -/
theorem resume_rebaseline :
    (∀ (s : SharedState) (now : Int),
      s.timer_started = true → s.timer_paused = true → 0 ≤ s.timer_pause_time →
      (start_timer now s).state.presentation_duration = s.timer_pause_time ∧
      (start_timer now s).state.timer_start_time = some now ∧
      (start_timer now s).state.timer_paused = false ∧
      (start_timer now s).saved = some (start_timer now s).state) ∧
    (∀ (s : SharedState) (st now1 now2 t : Int),
      s.timer_started = true → s.timer_paused = false →
      s.timer_start_time = some st →
      0 ≤ s.presentation_duration - (now1 - st) →
      remainingAt (start_timer now2 (pause_timer now1 s).state).state (now2 + t) =
        (s.presentation_duration - (now1 - st)) - t) := by
  constructor
  · intro s now hst hp h0
    unfold start_timer
    rw [if_neg (by simp [hst]), if_pos hp]
    exact ⟨max_eq_right h0, rfl, rfl, rfl⟩
  · intro s st now1 now2 t hst hp hsome h0
    obtain ⟨tt, suf, cs, fc, tm, pd, tst, tstart, tp, tpt⟩ := s
    simp only at hst hp hsome h0
    subst hst hp hsome
    simp only [pause_timer, start_timer, remainingAt, max_eq_right h0]
    simp
    omega

theorem resume_rebaseline_witness :
    remainingAt (start_timer 120
      (pause_timer 110
        { defaultState with
          timer_mode := TimerMode.presentation
          presentation_duration := 52
          timer_started := true
          timer_start_time := some 100 }).state).state (120 + 10) =
      ((52 : Int) - (110 - 100)) - 10 :=
  resume_rebaseline.2 _ 100 110 120 10 rfl rfl rfl (by decide)

/-- C5: `reset_timer` clears the run state (`timer_started`,
`timer_start_time`, `timer_paused`, `timer_pause_time`) and both color
flags, and leaves `presentation_duration` untouched. -/
theorem reset_timer_spec (s : SharedState) :
    (reset_timer s).state.timer_started = false ∧
    (reset_timer s).state.timer_start_time = none ∧
    (reset_timer s).state.timer_paused = false ∧
    (reset_timer s).state.timer_pause_time = 0 ∧
    (reset_timer s).state.color_state = false ∧
    (reset_timer s).state.force_color = false ∧
    (reset_timer s).state.presentation_duration = s.presentation_duration :=
  ⟨rfl, rfl, rfl, rfl, rfl, rfl, rfl⟩

/-- C6: in clock mode the reach transition fires exactly when the time of
day has passed the target and the machine is not already reached; firing
sets both flags and persists; once reached, later ticks neither fire the
event nor save again. -/
theorem clock_reach_once (s : SharedState) (now : Int)
    (hmode : s.timer_mode = TimerMode.clock) :
    ((tick now s).event = true ↔
      (targetSecs s.target_time ≤ todOf now ∧ s.color_state = false)) ∧
    ((tick now s).event = true →
      (tick now s).state.color_state = true ∧
      (tick now s).state.force_color = true ∧
      (tick now s).saved = some (tick now s).state) ∧
    (s.color_state = true →
      (tick now s).event = false ∧ (tick now s).saved = none) := by
  simp only [tick, hmode]
  unfold tickClock
  by_cases h1 : targetSecs s.target_time ≤ todOf now ∧ s.color_state = false
  · rw [if_pos h1]
    exact ⟨⟨fun _ => h1, fun _ => rfl⟩, fun _ => ⟨rfl, rfl, rfl⟩,
      fun hc => absurd h1.2 (by simp [hc])⟩
  · rw [if_neg h1]
    by_cases h2 : ¬(targetSecs s.target_time ≤ todOf now) ∧ s.force_color = false
    · rw [if_pos h2]
      exact ⟨⟨fun he => by simp at he, fun hcond => absurd hcond h1⟩,
        fun he => by simp at he, fun _ => ⟨rfl, rfl⟩⟩
    · rw [if_neg h2]
      exact ⟨⟨fun he => by simp at he, fun hcond => absurd hcond h1⟩,
        fun he => by simp at he, fun _ => ⟨rfl, rfl⟩⟩

theorem clock_reach_once_witness :
    (((tick 86340 defaultState).event = true ↔
      (targetSecs defaultState.target_time ≤ todOf 86340 ∧
        defaultState.color_state = false)) ∧
    ((tick 86340 defaultState).event = true →
      (tick 86340 defaultState).state.color_state = true ∧
      (tick 86340 defaultState).state.force_color = true ∧
      (tick 86340 defaultState).saved = some (tick 86340 defaultState).state) ∧
    (defaultState.color_state = true →
      (tick 86340 defaultState).event = false ∧
      (tick 86340 defaultState).saved = none)) :=
  clock_reach_once defaultState 86340 rfl

/-- C7: `load_settings` is total and returns the default record whenever
the store is absent/unreadable or the stored time fails to parse;
`save_settings` returns `false` instead of raising on an I/O or encoding
failure, and on success writes the full record with the freshly stamped
timestamp. -/
theorem settings_store_spec :
    (load_settings none = ⟨defaultState, none⟩) ∧
    (∀ d : RawData, strptimeHM d.time = none →
      load_settings (some d) = ⟨defaultState, none⟩) ∧
    (∀ (s : SharedState) (ts : Int), save_settings s ts false = (false, none)) ∧
    (∀ (s : SharedState) (ts : Int), save_settings s ts true =
      (true, some
        { time := formatHHMM s.target_time, suffix := s.suffix,
          timestamp := some ts,
          color_state := some s.color_state, force_color := some s.force_color,
          timer_mode := some s.timer_mode,
          presentation_duration := some s.presentation_duration,
          timer_started := some s.timer_started,
          timer_start_time := some s.timer_start_time,
          timer_paused := some s.timer_paused,
          timer_pause_time := some s.timer_pause_time })) := by
  refine ⟨rfl, ?_, fun s ts => rfl, fun s ts => rfl⟩
  intro d hd
  simp only [load_settings, hd]

theorem settings_store_spec_witness :
    load_settings (some
      { time := "bad", suffix := "まで", timestamp := none, color_state := none,
        force_color := none, timer_mode := none, presentation_duration := none,
        timer_started := none, timer_start_time := none, timer_paused := none,
        timer_pause_time := none }) = ⟨defaultState, none⟩ :=
  settings_store_spec.2.1 _ (by decide)

theorem tick_run_fields (now : Int) (s : SharedState) :
    (tick now s).state.timer_started = s.timer_started ∧
    (tick now s).state.timer_paused = s.timer_paused := by
  rcases s with ⟨tt, suf, cs, fc, tm, pd, tst, tstart, tp, tpt⟩
  cases tm <;> cases tst <;> cases tp <;>
    simp only [tick, tickPres, tickClock, fireState] <;>
    (try cases tstart) <;>
    (repeat' split) <;> simp

/-- Run-state invariant: in every reachable record, `timer_paused` implies
`timer_started` (pausing is only possible from a started timer and no
operation breaks the implication). -/
theorem reachable_paused_started {s : SharedState} (h : Reachable s) :
    s.timer_paused = true → s.timer_started = true := by
  induction h with
  | r_init => intro hp; simp [defaultState] at hp
  | r_tick s now _ ih =>
    rw [(tick_run_fields now s).1, (tick_run_fields now s).2]
    exact ih
  | r_start s now _ ih =>
    unfold start_timer
    split
    · intro _; rfl
    next h1 =>
      split
      · intro _
        show s.timer_started = true
        simpa using h1
      · exact ih
  | r_pause s now _ ih =>
    unfold pause_timer
    split
    next h1 => intro _; exact h1.1
    · exact ih
  | r_reset s _ _ =>
    intro hp
    simp [reset_timer] at hp
  | r_toggle s _ ih => exact ih
  | r_confirm_time s t suf now _ ih => exact ih
  | r_confirm_duration s d _ ih => exact ih
  | r_roundtrip s ts _ ih =>
    simp only [save_settings, if_true, load_settings]
    split
    · intro hp; simp [defaultState] at hp
    · intro hp
      simp only [Option.getD] at hp ⊢
      exact ih hp

/-- Number of the three run-state interpretations of
`(timer_started, timer_paused)` that currently apply. -/
def runStateCount (s : SharedState) : Nat :=
  (if s.timer_started = false then 1 else 0) +
  (if s.timer_paused = true then 1 else 0) +
  (if s.timer_started = true ∧ s.timer_paused = false then 1 else 0)

/-- C9: in every record reachable from the defaults through the page's
operations, exactly one of the three run-state interpretations holds —
stopped (`timer_started=false`), paused (`timer_paused=true`), running
(`timer_started=true ∧ timer_paused=false`); in particular paused never
co-occurs with stopped. -/
theorem run_state_exclusive (s : SharedState) (h : Reachable s) :
    runStateCount s = 1 := by
  have hp := reachable_paused_started h
  unfold runStateCount
  cases hst : s.timer_started <;> cases hpa : s.timer_paused <;> simp_all

theorem run_state_exclusive_witness : runStateCount defaultState = 1 :=
  run_state_exclusive defaultState Reachable.r_init

/-- C10: in presentation mode, a tick taken in a reachable stopped state
with the reached flag set clears both `color_state` and `force_color` and
persists the record. -/
theorem pres_stopped_clears (s : SharedState) (now : Int) (h : Reachable s)
    (hmode : s.timer_mode = TimerMode.presentation)
    (hstop : s.timer_started = false) (hreach : s.color_state = true) :
    (tick now s).state.color_state = false ∧
    (tick now s).state.force_color = false ∧
    (tick now s).saved = some (tick now s).state := by
  have hpa : s.timer_paused = false := by
    cases hpb : s.timer_paused
    · rfl
    · exact absurd (reachable_paused_started h hpb) (by simp [hstop])
  simp only [tick, hmode]
  unfold tickPres
  simp only [hstop, hpa]
  rw [if_pos hreach]
  exact ⟨rfl, rfl, rfl⟩

theorem pres_stopped_clears_witness :
    (tick 0 (confirm_duration 90
       (color_toggle defaultState).state).state).state.color_state = false ∧
    (tick 0 (confirm_duration 90
       (color_toggle defaultState).state).state).state.force_color = false ∧
    (tick 0 (confirm_duration 90 (color_toggle defaultState).state).state).saved =
      some (tick 0 (confirm_duration 90
        (color_toggle defaultState).state).state).state :=
  pres_stopped_clears _ 0
    (Reachable.r_confirm_duration _ 90 (Reachable.r_toggle _ Reachable.r_init))
    rfl rfl rfl

/-- C8 counterexample: the claim states that no transition other than the
manual color toggle — explicitly including `reset` — ever sets
`force_color` from `true` to `false`; but `reset_timer` clears
`force_color` unconditionally (src/app.py line 617). -/
theorem reset_clears_forceColor_cex :
    ({ defaultState with
       color_state := true
       force_color := true } : SharedState).force_color = true ∧
    (reset_timer { defaultState with
       color_state := true
       force_color := true }).state.force_color = false :=
  ⟨rfl, rfl⟩

/-- C8 (amended): the manual color toggle can force the reached state at
any time; a clock-mode tick sets `color_state` only once the target
time-of-day has passed and never clears `force_color`; the confirm branch
sets the flag only when the newly confirmed target has passed; start never
newly sets `color_state` and pause leaves it unchanged; but `reset` (like
a fresh start and the stopped presentation-mode tick) does clear
`force_color` from `true` to `false`. -/
theorem color_force_control :
    (∀ s : SharedState, s.color_state = false →
      (color_toggle s).state.color_state = true ∧
      (color_toggle s).state.force_color = true) ∧
    (∀ (s : SharedState) (now : Int), s.timer_mode = TimerMode.clock →
      s.color_state = false → (tick now s).state.color_state = true →
      targetSecs s.target_time ≤ todOf now) ∧
    (∀ (t : TimeOfDay) (suf : String) (now : Int) (s : SharedState),
      (confirm_time t suf now s).state.color_state = true →
      targetSecs t ≤ todOf now) ∧
    (∀ (now : Int) (s : SharedState),
      (start_timer now s).state.color_state = true → s.color_state = true) ∧
    (∀ (now : Int) (s : SharedState),
      (pause_timer now s).state.color_state = s.color_state) ∧
    (∀ (s : SharedState) (now : Int), s.timer_mode = TimerMode.clock →
      s.force_color = true → (tick now s).state.force_color = true) ∧
    (∀ s : SharedState, (reset_timer s).state.force_color = false) := by
  refine ⟨?_, ?_, ?_, ?_, ?_, ?_, fun s => rfl⟩
  · intro s hc
    simp [color_toggle, hc]
  · intro s now hmode hc
    simp only [tick, hmode]
    unfold tickClock
    split
    next h1 => exact fun _ => h1.1
    · split
      · intro hcol
        simp at hcol
      · intro hcol
        rw [hc] at hcol
        simp at hcol
  · intro t suf now s hcol
    exact of_decide_eq_true hcol
  · intro now s
    unfold start_timer
    split
    · intro hcol; simp at hcol
    · split
      · exact fun hcol => hcol
      · exact fun hcol => hcol
  · intro now s
    unfold pause_timer
    split
    · rfl
    · rfl
  · intro s now hmode hf
    simp only [tick, hmode]
    unfold tickClock
    split
    · rfl
    · split
      · exact hf
      · exact hf

theorem color_force_control_witness :
    (color_toggle defaultState).state.color_state = true ∧
    (color_toggle defaultState).state.force_color = true :=
  color_force_control.1 defaultState rfl
